import Mathlib

/-!
Verification development for the LinkedIn-export extraction engine
(`src/backend/src` of the `wrapped-for-linkedin` repository).

The Python sources are shallowly embedded: spreadsheet cell values become a
small tagged-union type, Python floats become an explicit `PyFloat` type over
`ℚ` with infinity/NaN markers, fallible functions return `Except Err`, and
each embedded definition follows one source function line by line.  The two
helper modules `sheet_parser.py` and `top_posts_parser.py` are imported by the
orchestrator but are not part of the provided sources; their embeddings are
marked `Modelled from the spec:` and follow the specification's wording.
-/

namespace LinkedinWrapped

/-- A raw (non-empty) value held by a spreadsheet cell, as surfaced by the
spreadsheet-reading library: either text or a number.  Numbers are modelled
over `ℚ`; every numeric literal appearing in the repository's data paths is a
finite decimal, so the rational model is exact for them. -/
inductive PyVal where
  | str (s : String)
  | num (q : ℚ)
  deriving DecidableEq, Repr

/-- A cell as read through the spreadsheet library: `none` is Python's `None`
(an empty cell). -/
abbrev Cell := Option PyVal

abbrev Row := List Cell

/-- A sheet is its list of rows (`ws.max_row` rows, 1-based in the source). -/
abbrev Sheet := List Row

/-- A workbook is a list of named sheets; `wb.sheetnames` is the list of keys. -/
abbrev Workbook := List (String × Sheet)

/-- `wb[name]` together with the `name in wb.sheetnames` test. -/
def lookupSheet (wb : Workbook) (name : String) : Option Sheet :=
  (wb.find? (fun p => p.1 == name)).map Prod.snd

/-- `ws.cell(row, col).value` with 1-based `col`, for one row: cells outside
the stored row read as `None`. -/
def cellAt (row : Row) (col : Nat) : Cell :=
  row.getD (col - 1) none

/-- Python truthiness of a cell value (`if category_cell and value_cell`):
`None`, the empty string and the number `0` are falsy. -/
def truthy : Cell → Bool
  | none => false
  | some (.str s) => !(s == "")
  | some (.num q) => !(q == 0)

/-- Python `str(...)` applied to a cell value.  `str(None)` is `"None"`.
The numeric rendering only ever feeds comparisons against alphabetic header
names and date parsing, both of which it fails exactly as Python's rendering
of a float would. -/
def pyStr : PyVal → String
  | .str s => s
  | .num q => toString q

/-- `str(cell.value)` where the cell may be `None`. -/
def pyStrOfCell : Cell → String
  | none => "None"
  | some v => pyStr v

/-!
String primitives.  The standard library's `String.splitOn`, `String.trim`
and `String.replace` are compiled with well-founded recursion and do not
reduce inside the kernel, so the embedding re-implements them by structural
(fuel-indexed) recursion over character lists with the same semantics;
`decide`/`rfl` can then evaluate every concrete example.
-/

def isPrefixList : List Char → List Char → Bool
  | [], _ => true
  | _ :: _, [] => false
  | a :: as, b :: bs => a == b && isPrefixList as bs

/-- Worker for `strSplitOn`: scans left to right, splitting at each
non-overlapping occurrence of the (non-empty) separator.  The fuel starts at
the input length and bounds the recursion. -/
def splitOnAux (sep : List Char) : Nat → List Char → List Char → List (List Char)
  | 0, l, acc => [acc.reverse ++ l]
  | _ + 1, [], acc => [acc.reverse]
  | fuel + 1, c :: rest, acc =>
    if isPrefixList sep (c :: rest) then
      acc.reverse :: splitOnAux sep fuel (List.drop (sep.length - 1) rest) []
    else
      splitOnAux sep fuel rest (c :: acc)

/-- Python `s.split(sep)` / Lean `String.splitOn` for a non-empty separator. -/
def strSplitOn (s sep : String) : List String :=
  (splitOnAux sep.data s.data.length s.data []).map (fun l => ⟨l⟩)

/-- Worker for `strReplace`: replaces every non-overlapping occurrence of the
(non-empty) pattern, left to right. -/
def replaceAux (pat rep : List Char) : Nat → List Char → List Char
  | 0, l => l
  | _ + 1, [] => []
  | fuel + 1, c :: rest =>
    if isPrefixList pat (c :: rest) then
      rep ++ replaceAux pat rep fuel (List.drop (pat.length - 1) rest)
    else
      c :: replaceAux pat rep fuel rest

/-- Python `s.replace(pat, rep)` for a non-empty pattern. -/
def strReplace (s pat rep : String) : String :=
  ⟨replaceAux pat.data rep.data s.data.length s.data⟩

/-- The whitespace stripped by Python's `str.strip()` (ASCII range). -/
def isPyWs (c : Char) : Bool :=
  c == ' ' || c == '\t' || c == '\n' || c == '\r' || c == Char.ofNat 11 || c == Char.ofNat 12

def listTrim (l : List Char) : List Char :=
  ((l.dropWhile isPyWs).reverse.dropWhile isPyWs).reverse

/-- Python `s.strip()`. -/
def strTrim (s : String) : String :=
  ⟨listTrim s.data⟩

/-- ASCII lower-casing of one character (`str.lower()` on the header texts
compared by the sources, which are ASCII). -/
def charLower (c : Char) : Char :=
  if 65 ≤ c.toNat ∧ c.toNat ≤ 90 then Char.ofNat (c.toNat + 32) else c

/-- Python `s.lower()`. -/
def strLower (s : String) : String :=
  ⟨s.data.map charLower⟩

/-- The error value carried by a raised exception.  `msg` is a `ValueError`
with its message (`NormalizationError` in the specification's taxonomy);
`missingFields` is the `MissingFieldError` raised by the discovery extractor,
carrying the full set of missing field names (the source formats the Python
set into the message text; the embedding keeps it structured). -/
inductive Err where
  | msg (s : String)
  | missingFields (fields : List String)
  deriving DecidableEq, Repr

instance {ε α : Type} [DecidableEq ε] [DecidableEq α] : DecidableEq (Except ε α) :=
  fun a b =>
    match a, b with
    | .ok x, .ok y =>
      if h : x = y then isTrue (congrArg _ h) else isFalse (fun hc => h (Except.ok.inj hc))
    | .error x, .error y =>
      if h : x = y then isTrue (congrArg _ h) else isFalse (fun hc => h (Except.error.inj hc))
    | .ok _, .error _ => isFalse (fun hc => Except.noConfusion hc)
    | .error _, .ok _ => isFalse (fun hc => Except.noConfusion hc)

/-- Re-raising with a prefixed message, as in
`raise ValueError(f"Failed ...: {str(e)}")`.  (The `missingFields` branch is
never wrapped on any path of the source.) -/
def wrapErr (p : String) : Err → Err
  | .msg s => .msg (p ++ s)
  | .missingFields fs => .missingFields fs

/-- The value of a Python `float`: a finite rational or one of the non-finite
markers produced by the literals `inf`/`infinity`/`nan`. -/
inductive PyFloat where
  | fin (q : ℚ)
  | inf
  | ninf
  | nan
  deriving DecidableEq, Repr

/-- IEEE-style addition on `PyFloat` (only the finite/non-finite structure is
modelled; finite arithmetic is exact over `ℚ`). -/
def PyFloat.add : PyFloat → PyFloat → PyFloat
  | .fin a, .fin b => .fin (a + b)
  | .nan, _ => .nan
  | _, .nan => .nan
  | .inf, .ninf => .nan
  | .ninf, .inf => .nan
  | .inf, _ => .inf
  | _, .inf => .inf
  | .ninf, _ => .ninf
  | _, .ninf => .ninf

/-- Python `int(x)` on a float: truncation toward zero; non-finite values
raise (`OverflowError`/`ValueError`, both caught by the source's blanket
`except Exception` handlers and rewrapped). -/
def PyFloat.toPyInt : PyFloat → Except Err Int
  | .fin q => .ok (Int.tdiv q.num q.den)
  | .inf => .error (.msg "cannot convert float infinity to integer")
  | .ninf => .error (.msg "cannot convert float infinity to integer")
  | .nan => .error (.msg "cannot convert float NaN to integer")

/-- `s` has at least one character and all of them are decimal digits. -/
def isDigitStr (s : String) : Bool :=
  !(s == "") && s.data.all Char.isDigit

/-- Value of a string of decimal digits. -/
def digitsToNat (s : String) : Nat :=
  s.data.foldl (fun n c => n * 10 + (c.toNat - 48)) 0

/-- Python numeric-literal underscore rule: every `_` must sit between two
digits. -/
def underscoresOkList : List Char → Bool
  | '_' :: _ => false
  | a :: '_' :: b :: rest => a.isDigit && b.isDigit && underscoresOkList (b :: rest)
  | _ :: '_' :: [] => false
  | _ :: rest => underscoresOkList rest
  | [] => true

def stripUnderscores (s : String) : String :=
  ⟨s.data.filter (fun c => !(c == '_'))⟩

/-- Split a candidate float literal into mantissa and optional exponent part
at `e`/`E`; `none` when more than one exponent marker of the same case
occurs. -/
def splitExpParts (s : String) : Option (String × Option String) :=
  match strSplitOn s "e" with
  | [_] =>
    match strSplitOn s "E" with
    | [_] => some (s, none)
    | [m2, e2] => some (m2, some e2)
    | _ => none
  | [m, e] => some (m, some e)
  | _ => none

/-- Mantissa of a float literal: `digits`, `digits.`, `.digits` or
`digits.digits`. -/
def parseMantissa (s : String) : Option ℚ :=
  match strSplitOn s "." with
  | [i] => if isDigitStr i then some ((digitsToNat i : ℚ)) else none
  | [i, f] =>
    if (!(i == "") || !(f == "")) && i.all Char.isDigit && f.all Char.isDigit then
      some ((digitsToNat i : ℚ) + (digitsToNat f : ℚ) / (10 : ℚ) ^ f.length)
    else none
  | _ => none

/-- Exponent of a float literal: optional sign, then digits. -/
def parseExp (s : String) : Option Int :=
  match s.data with
  | '-' :: rest => if isDigitStr ⟨rest⟩ then some (-(digitsToNat ⟨rest⟩ : Int)) else none
  | '+' :: rest => if isDigitStr ⟨rest⟩ then some ((digitsToNat ⟨rest⟩ : Int)) else none
  | _ => if isDigitStr s then some ((digitsToNat s : Int)) else none

/-- Unsigned finite decimal literal (underscores already removed). -/
def parseDecimal (s : String) : Option ℚ :=
  match splitExpParts s with
  | none => none
  | some (m, eOpt) =>
    match parseMantissa m with
    | none => none
    | some mant =>
      match eOpt with
      | none => some mant
      | some e =>
        match parseExp e with
        | none => none
        | some ex => some (mant * (10 : ℚ) ^ ex)

/-- Model of Python's `float(string)`: strip surrounding whitespace, optional
sign, then either an `inf`/`infinity`/`nan` literal (case-insensitive) or a
finite decimal literal with Python's underscore rule.  `none` models a raised
`ValueError`.  (Non-ASCII digit forms accepted by CPython are outside the
model.) -/
def pyFloat? (s : String) : Option PyFloat :=
  let t := listTrim s.data
  let neg := isPrefixList ['-'] t
  let body : List Char :=
    match t with
    | '-' :: rest => rest
    | '+' :: rest => rest
    | l => l
  let low := body.map charLower
  if low == "inf".data || low == "infinity".data then
    some (if neg then .ninf else .inf)
  else if low == "nan".data then
    some .nan
  else if underscoresOkList body then
    match parseDecimal (stripUnderscores ⟨body⟩) with
    | some q => some (.fin (if neg then -q else q))
    | none => none
  else none

/-- Python's substring test `pat in s` (for non-empty `pat`). -/
def hasSub (s pat : String) : Bool :=
  !((strSplitOn s pat).length == 1)

/-- The cleaning done by `parse_percentage` on text input:
`value.replace("%", "").replace("<", "").strip()` — every `%` and every `<`
is removed, wherever it occurs. -/
def cleanPercent (s : String) : String :=
  strTrim (strReplace (strReplace s "%" "") "<" "")

/-- `demographics_parser.parse_percentage` (lines 44–68): text containing the
sentinel `"< 1%"` yields `0.005`; other text is cleaned and parsed as a float;
numbers pass through; failures raise `ValueError` (the message quotes the
already-cleaned string, since the source rebinds `value` before `float`
raises). -/
def parse_percentage : PyVal → Except Err PyFloat
  | .num q => .ok (.fin q)
  | .str s =>
    if hasSub s "< 1%" then .ok (.fin (1 / 200))
    else
      match pyFloat? (cleanPercent s) with
      | some f => .ok f
      | none => .error (.msg ("Failed to parse percentage value '" ++ cleanPercent s ++ "'"))

/-- The cleaning the specification's words describe for `parse_percentage`:
"stripping a '%' suffix and any leading '<'" — written only to be compared
with the source's `cleanPercent`. -/
def specCleanPercent (s : String) : String :=
  let l1 : List Char :=
    match s.data.reverse with
    | '%' :: rest => rest.reverse
    | _ => s.data
  ⟨listTrim (l1.dropWhile (fun c => c == '<'))⟩

/-- A calendar date as produced by `datetime.strptime(...).date()`. -/
structure PyDate where
  year : Nat
  month : Nat
  day : Nat
  deriving DecidableEq, Repr

def isLeapYear (y : Nat) : Bool :=
  (y % 4 == 0 && !(y % 100 == 0)) || y % 400 == 0

def daysInMonth (y m : Nat) : Nat :=
  if m == 2 then (if isLeapYear y then 29 else 28)
  else if m == 4 || m == 6 || m == 9 || m == 11 then 30
  else 31

/-- `datetime.strptime(tok, "%m/%d/%Y").date()`: one-or-two-digit month and
day, exactly four-digit year, `/` separators, ranges validated (month 1–12,
day 1–days-in-month, year ≥ 1). -/
def strptimeMDY (tok : String) : Except Err PyDate :=
  match strSplitOn tok "/" with
  | [ms, ds, ys] =>
    if isDigitStr ms ∧ ms.length ≤ 2 ∧ isDigitStr ds ∧ ds.length ≤ 2
        ∧ isDigitStr ys ∧ ys.length = 4 then
      if 1 ≤ digitsToNat ms ∧ digitsToNat ms ≤ 12 ∧ 1 ≤ digitsToNat ds
          ∧ digitsToNat ds ≤ daysInMonth (digitsToNat ys) (digitsToNat ms)
          ∧ 1 ≤ digitsToNat ys then
        .ok ⟨digitsToNat ys, digitsToNat ms, digitsToNat ds⟩
      else .error (.msg ("time data '" ++ tok ++ "' does not match format '%m/%d/%Y'"))
    else .error (.msg ("time data '" ++ tok ++ "' does not match format '%m/%d/%Y'"))
  | _ => .error (.msg ("time data '" ++ tok ++ "' does not match format '%m/%d/%Y'"))

/-- `discovery_parser.parse_date_range` (lines 43–67): strip, split on
`" - "`, require exactly two parts, parse each (stripped) as `%m/%d/%Y`;
every failure is rewrapped as `"Failed to parse date range ..."`. -/
def parse_date_range (s : String) : Except Err (PyDate × PyDate) :=
  match strSplitOn (strTrim s) " - " with
  | [t1, t2] =>
    match strptimeMDY (strTrim t1) with
    | .error e => .error (wrapErr "Failed to parse date range: " e)
    | .ok d1 =>
      match strptimeMDY (strTrim t2) with
      | .error e => .error (wrapErr "Failed to parse date range: " e)
      | .ok d2 => .ok (d1, d2)
  | _ =>
    .error (.msg "Failed to parse date range: Expected format 'MM/DD/YYYY - MM/DD/YYYY'")

/-- Number of positions at which the separator `" - "` occurs in a character
list.  Since `" - "` cannot overlap itself, this position count coincides with
the non-overlapping occurrence count that Python's `split` sees. -/
def sepMatchCountList : List Char → Nat
  | [] => 0
  | c :: rest =>
    (if isPrefixList [' ', '-', ' '] (c :: rest) then 1 else 0) + sepMatchCountList rest

/-- Number of occurrences of the separator `" - "` in the raw input string of
`parse_date_range`, before any stripping. -/
def sepOccurrencesRaw (s : String) : Nat :=
  sepMatchCountList s.data

/-- Reassemble split parts with a separator between consecutive parts
(`sep.join(parts)`), used to state what `splitOnAux` decomposes. -/
def joinParts (sep : List Char) : List (List Char) → List Char
  | [] => []
  | [x] => x
  | x :: xs => x ++ sep ++ joinParts sep xs

/-- Number of `'-'` characters in a character list. -/
def dashCount (l : List Char) : Nat :=
  (l.filter (fun c => c == '-')).length

/-- `discovery_parser.parse_integer_value` (lines 70–90): strings lose commas
and surrounding whitespace, then `int(float(value))`. -/
def parse_integer_value (v : PyVal) : Except Err Int :=
  match v with
  | .str s =>
    match pyFloat? (strTrim (strReplace s "," "")) with
    | some f => f.toPyInt
    | none => .error (.msg ("Failed to parse integer value '" ++ strTrim (strReplace s "," "") ++ "'"))
  | .num q => PyFloat.toPyInt (.fin q)

/-- Header text normalization used when locating columns:
`str(cell.value).strip().lower()`. -/
def normHeader (c : Cell) : String :=
  strLower (strTrim (pyStrOfCell c))

/-- Find the 1-based index of the first header cell with a truthy value whose
normalized text equals `target` (`for col_idx, cell in enumerate(row, 1)`). -/
def findColumn (headerRow : Row) (target : String) : Option Nat :=
  (headerRow.findIdx? (fun c => truthy c && (normHeader c == target))).map (· + 1)

/-- Sum one column over the given data rows: `None` cells are skipped, string
cells are summed when `float(...)` succeeds and silently skipped otherwise. -/
def sumColumn (dataRows : List Row) (col : Nat) : PyFloat :=
  dataRows.foldl
    (fun acc row =>
      match cellAt row col with
      | none => acc
      | some (.num q) => acc.add (.fin q)
      | some (.str s) =>
        match pyFloat? s with
        | some f => acc.add f
        | none => acc)
    (.fin 0)

/-- `summary_metrics_parser.get_total_engagements` (lines 11–56): locate the
`Engagements` header in row 1 of the `ENGAGEMENT` sheet, sum the column from
row 2 on, truncate to `int`; every failure is rewrapped. -/
def get_total_engagements (wb : Workbook) : Except Err Int :=
  match lookupSheet wb "ENGAGEMENT" with
  | none =>
    .error (.msg "Failed to calculate total engagements: ENGAGEMENT sheet not found in Excel file")
  | some ws =>
    match findColumn (ws.headD []) "engagements" with
    | none =>
      .error (.msg "Failed to calculate total engagements: 'Engagements' column not found in ENGAGEMENT sheet")
    | some col =>
      match (sumColumn (ws.drop 1) col).toPyInt with
      | .ok n => .ok n
      | .error e => .error (wrapErr "Failed to calculate total engagements: " e)

/-- `summary_metrics_parser.get_average_daily_impressions` (lines 59–75). -/
def get_average_daily_impressions (total_impressions : Int) : Except Err ℚ :=
  if total_impressions < 0 then .error (.msg "Total impressions cannot be negative")
  else .ok ((total_impressions : ℚ) / 365)

/-- `summary_metrics_parser.get_new_followers` (lines 78–124): header row is
row 3 of the `FOLLOWERS` sheet, data start at row 4. -/
def get_new_followers (wb : Workbook) : Except Err Int :=
  match lookupSheet wb "FOLLOWERS" with
  | none =>
    .error (.msg "Failed to calculate new followers: FOLLOWERS sheet not found in Excel file")
  | some ws =>
    match findColumn (ws.getD 2 []) "new followers" with
    | none =>
      .error (.msg "Failed to calculate new followers: 'New followers' column not found in Followers sheet")
    | some col =>
      match (sumColumn (ws.drop 3) col).toPyInt with
      | .ok n => .ok n
      | .error e => .error (wrapErr "Failed to calculate new followers: " e)

/-- The dictionary returned by `calculate_summary_metrics`. -/
structure SummaryMetrics where
  total_engagements : Int
  average_impressions_per_day : ℚ
  new_followers : Int
  deriving DecidableEq, Repr

/-- `summary_metrics_parser.calculate_summary_metrics` (lines 127–157): the
three aggregations run in order; the first `ValueError` aborts the whole
computation and is rewrapped. -/
def calculate_summary_metrics (wb : Workbook) (total_impressions : Int) :
    Except Err SummaryMetrics :=
  match get_total_engagements wb with
  | .error e => .error (wrapErr "Failed to calculate summary metrics: " e)
  | .ok te =>
    match get_average_daily_impressions total_impressions with
    | .error e => .error (wrapErr "Failed to calculate summary metrics: " e)
    | .ok avg =>
      match get_new_followers wb with
      | .error e => .error (wrapErr "Failed to calculate summary metrics: " e)
      | .ok nf => .ok ⟨te, avg, nf⟩

/-- `discovery_parser.DiscoveryData` (lines 11–40): required fields plus the
three optional engagement-derived metrics, defaulting to `None`. -/
structure DiscoveryData where
  start_date : PyDate
  end_date : PyDate
  total_impressions : Int
  members_reached : Int
  total_engagements : Option Int := none
  average_impressions_per_day : Option ℚ := none
  new_followers : Option Int := none
  deriving DecidableEq, Repr

/-- The `discovery_cells` dictionary passed to `extract_discovery_data`. -/
abbrev DiscoveryCells := List (String × PyVal)

def hasKey (cells : DiscoveryCells) (k : String) : Bool :=
  cells.any (fun p => p.1 == k)

def getVal (cells : DiscoveryCells) (k : String) : PyVal :=
  ((cells.find? (fun p => p.1 == k)).map Prod.snd).getD (.str "None")

/-- The required-field set of `extract_discovery_data` (line 117), in source
order. -/
def required_fields : List String :=
  ["Overall Performance", "Impressions", "Members reached"]

/-- `discovery_parser.extract_discovery_data` (lines 93–158): all three
required fields must be present, otherwise a `MissingFieldError` carrying the
full set of missing names is raised before anything is parsed.  On success the
date range and the two counts are normalized; when file content is supplied,
`calculate_summary_metrics` is attempted and a failure there is only logged —
the three optional fields stay `None`. -/
def extract_discovery_data (cells : DiscoveryCells) (file_content : Option Workbook) :
    Except Err DiscoveryData :=
  if required_fields.all (fun f => hasKey cells f) then
    match parse_date_range (pyStr (getVal cells "Overall Performance")) with
    | .error e => .error (wrapErr "Failed to extract discovery data: " e)
    | .ok dr =>
      match parse_integer_value (getVal cells "Impressions") with
      | .error e => .error (wrapErr "Failed to extract discovery data: " e)
      | .ok imp =>
        match parse_integer_value (getVal cells "Members reached") with
        | .error e => .error (wrapErr "Failed to extract discovery data: " e)
        | .ok mem =>
          let metrics : Option SummaryMetrics :=
            match file_content with
            | none => none
            | some fc =>
              match calculate_summary_metrics fc imp with
              | .ok m => some m
              | .error _ => none
          .ok { start_date := dr.1, end_date := dr.2,
                total_impressions := imp, members_reached := mem,
                total_engagements := metrics.map SummaryMetrics.total_engagements,
                average_impressions_per_day :=
                  metrics.map SummaryMetrics.average_impressions_per_day,
                new_followers := metrics.map SummaryMetrics.new_followers }
  else
    .error (.missingFields (required_fields.filter (fun f => !(hasKey cells f))))

/-- `demographics_parser.DemographicItem` (lines 10–20). -/
structure DemographicItem where
  name : String
  percentage : PyFloat
  deriving DecidableEq, Repr

/-- `demographics_parser.DemographicsData` (lines 23–41), with every category
held as a (possibly empty) list, exactly as the parser constructs it. -/
structure DemographicsData where
  job_titles : List DemographicItem
  locations : List DemographicItem
  industries : List DemographicItem
  seniority : List DemographicItem
  company_size : List DemographicItem
  companies : List DemographicItem
  deriving DecidableEq, Repr

/-- `DemographicsData.to_dict` (lines 33–41): the six fixed keys in source
order.  (The source's `if self.seniority else []` truthiness test maps an
empty list to an empty list, so it is the identity on every value the parser
produces.) -/
def DemographicsData.to_dict (d : DemographicsData) : List (String × List DemographicItem) :=
  [("job_titles", d.job_titles), ("locations", d.locations),
   ("industries", d.industries), ("seniority", d.seniority),
   ("company_size", d.company_size), ("companies", d.companies)]

/-- The six recognized category labels (keys of the `demographics` dictionary
initialized at lines 101–108). -/
def demographicCategories : List String :=
  ["Job titles", "Locations", "Industries", "Seniority", "Company size", "Companies"]

/-- `demographics[category].append(item)` guarded by
`if category in demographics` (lines 124–125): unrecognized categories leave
the data untouched.  The item is consed because the surrounding recursion
processes later rows first. -/
def addDemographicItem (d : DemographicsData) (category : String) (item : DemographicItem) :
    DemographicsData :=
  if category == "Job titles" then { d with job_titles := item :: d.job_titles }
  else if category == "Locations" then { d with locations := item :: d.locations }
  else if category == "Industries" then { d with industries := item :: d.industries }
  else if category == "Seniority" then { d with seniority := item :: d.seniority }
  else if category == "Company size" then { d with company_size := item :: d.company_size }
  else if category == "Companies" then { d with companies := item :: d.companies }
  else d

/-- One iteration of the row loop of `parse_demographics_sheet`
(lines 111–129): the row is used only when the category and item cells are
truthy and the percentage cell is not `None`; a percentage that fails to
normalize only logs a warning and skips the row. -/
def stepDemographicsRow (d : DemographicsData) (row : Row) : DemographicsData :=
  let c1 := cellAt row 1
  let c2 := cellAt row 2
  let c3 := cellAt row 3
  if truthy c1 && truthy c2 && c3.isSome then
    match c3 with
    | some pv =>
      match parse_percentage pv with
      | .ok p => addDemographicItem d (strTrim (pyStrOfCell c1)) ⟨strTrim (pyStrOfCell c2), p⟩
      | .error _ => d
    | none => d
  else d

/-- The row loop of `parse_demographics_sheet` over the data rows
(rows 2..max_row). -/
def processDemographicsRows : List Row → DemographicsData
  | [] => ⟨[], [], [], [], [], []⟩
  | row :: rest => stepDemographicsRow (processDemographicsRows rest) row

/-- `demographics_parser.parse_demographics_sheet` (lines 71–142): requires
the `DEMOGRAPHICS` sheet (its absence is the only failure, rewrapped by the
outer handler), skips the header row, and folds the row loop. -/
def parse_demographics_sheet (wb : Workbook) : Except Err DemographicsData :=
  match lookupSheet wb "DEMOGRAPHICS" with
  | none =>
    .error (.msg "Failed to parse DEMOGRAPHICS sheet: DEMOGRAPHICS sheet not found in Excel file")
  | some ws => .ok (processDemographicsRows (ws.drop 1))

/-- One parsed post as stored by the orchestrator: a Python dict read back
with `post.get(key, default)` in `analytics_service.get_top_posts`. -/
structure PostDict where
  url : Option String
  publish_date : Option String
  engagements : Option ℚ
  impressions : Option ℚ
  deriving DecidableEq, Repr

/-- `models.schemas.TopPost`. -/
structure TopPost where
  rank : Nat
  url : String
  publish_date : String
  engagements : ℚ
  impressions : ℚ
  deriving DecidableEq, Repr

/-- The enumeration loop of `analytics_service.get_top_posts`
(`for idx, post in enumerate(posts_data[:6], 1)`): build one `TopPost` per
dict, rank = running position, missing dict entries defaulted. -/
def rankPosts : Nat → List PostDict → List TopPost
  | _, [] => []
  | i, p :: rest =>
    { rank := i,
      url := p.url.getD "",
      publish_date := p.publish_date.getD "",
      engagements := p.engagements.getD 0,
      impressions := p.impressions.getD 0 } :: rankPosts (i + 1) rest

/-- The view built by `analytics_service.get_top_posts` (lines 94–110) from a
stored list of parsed posts: `posts_data[:6]` — the first **six** stored
posts, ranks assigned by position starting at 1. -/
def get_top_posts (posts : List PostDict) : List TopPost :=
  rankPosts 1 (posts.take 6)

/-- Modelled from the spec: `parse_discovery_sheet` lives in
`src/backend/src/utils/sheet_parser.py`, which is absent from the provided
sources.  Per §4.2 and the example in `extract_discovery_data`'s docstring it
reads the labeled cells of the discovery landmark sheet into a dictionary of
label/value pairs, failing only when the sheet is absent. -/
def parse_discovery_sheet (wb : Workbook) : Except Err DiscoveryCells :=
  match lookupSheet wb "DISCOVERY" with
  | none => .error (.msg "DISCOVERY sheet not found in Excel file")
  | some ws =>
    .ok (ws.filterMap
      (fun row =>
        match cellAt row 1, cellAt row 2 with
        | some label, some v => some (pyStr label, v)
        | _, _ => none))

def cellToQ : Cell → Option ℚ
  | some (.num q) => some q
  | _ => none

/-- Modelled from the spec: `parse_top_posts_sheet` lives in
`src/backend/src/utils/top_posts_parser.py`, absent from the provided sources.
Per §4.3 it reads a variable-length block of rows (url, publish date,
engagements, optional impressions) from the top-posts landmark sheet in source
order, failing only when the sheet is absent. -/
def parse_top_posts_sheet (wb : Workbook) : Except Err (List PostDict) :=
  match lookupSheet wb "TOP POSTS" with
  | none => .error (.msg "top posts sheet not found in Excel file")
  | some ws =>
    .ok ((ws.drop 1).map
      (fun row =>
        { url := (cellAt row 1).map pyStr,
          publish_date := (cellAt row 2).map pyStr,
          engagements := cellToQ (cellAt row 3),
          impressions := cellToQ (cellAt row 4) }))

/-- Modelled from the spec: `get_top_5_posts` lives in
`src/backend/src/utils/top_posts_parser.py`, absent from the provided sources.
Per §4.3 ("source takes 6") it truncates the parsed rows to the first six. -/
def get_top_5_posts (posts : List PostDict) : List PostDict :=
  posts.take 6

/-- `models.schemas.DiscoveryData` — the Pydantic model the orchestrator
stores: only the four required fields exist on it. -/
structure SchemaDiscoveryData where
  start_date : PyDate
  end_date : PyDate
  total_impressions : Int
  members_reached : Int
  deriving DecidableEq, Repr

/-- The JSON response returned by `process_linkedin_file`. -/
structure UploadResponse where
  success : Bool
  fileId : String
  message : String
  deriving DecidableEq, Repr

/-- The dictionary stored by `store_file_data` (file_service lines 51–57). -/
structure StoredBundle where
  discovery_data : Option SchemaDiscoveryData
  top_posts : Option (List PostDict)
  demographics_data : Option DemographicsData
  filename : String
  content : Workbook
  deriving DecidableEq, Repr

/-- Result of one orchestrator invocation: the HTTP response plus the store
entry written under the generated key. -/
structure ProcessResult where
  response : UploadResponse
  stored_key : String
  stored : StoredBundle
  deriving DecidableEq, Repr

/-- `file_service.process_linkedin_file` (lines 13–73).  The generated
`uuid.uuid4()` is modelled as the externally supplied `file_id`; the byte
content is modelled as the already-opened workbook.  Each extractor runs under
its own `except ValueError` handler that logs and leaves the field `None`;
note the discovery extractor is invoked **without** the file content, so the
summary-metrics merge never runs on this path.  The trailing Polars step reads
the bytes into a discarded frame under a blanket handler and affects neither
the store nor the response, so it is omitted. -/
def process_linkedin_file (file_id : String) (filename : String) (content : Workbook) :
    ProcessResult :=
  let discovery_data : Option SchemaDiscoveryData :=
    match parse_discovery_sheet content with
    | .error _ => none
    | .ok cells =>
      match extract_discovery_data cells none with
      | .error _ => none
      | .ok pd => some ⟨pd.start_date, pd.end_date, pd.total_impressions, pd.members_reached⟩
  let top_posts : Option (List PostDict) :=
    match parse_top_posts_sheet content with
    | .error _ => none
    | .ok all_posts => some (get_top_5_posts all_posts)
  let demographics_data : Option DemographicsData :=
    match parse_demographics_sheet content with
    | .error _ => none
    | .ok d => some d
  { response := { success := true, fileId := file_id, message := "File processed successfully" },
    stored_key := file_id,
    stored := { discovery_data := discovery_data, top_posts := top_posts,
                demographics_data := demographics_data, filename := filename,
                content := content } }

/-! ### Concrete fixtures used by witnesses and counterexamples -/

/-- A workbook with valid `DISCOVERY`, `ENGAGEMENT`, top-posts and
`DEMOGRAPHICS` sheets but no `FOLLOWERS` sheet — the partial-failure scenario
of the specification's §8. -/
def wbC1 : Workbook :=
  [("DISCOVERY",
    [[some (.str "Overall Performance"), some (.str "11/11/2024 - 11/10/2025")],
     [some (.str "Impressions"), some (.num 857000)],
     [some (.str "Members reached"), some (.num 297771)]]),
   ("ENGAGEMENT", [[some (.str "Engagements")], [some (.num 10)], [some (.num 5)]]),
   ("TOP POSTS",
    [[some (.str "URL"), some (.str "Date"), some (.str "Engagements")],
     [some (.str "http://a"), some (.str "1/1/2025"), some (.num 3)]]),
   ("DEMOGRAPHICS",
    [[some (.str "Top Demographics"), some (.str "Value"), some (.str "Percentage")],
     [some (.str "Job titles"), some (.str "Engineer"), some (.num 12)]])]

/-- The discovery cells `parse_discovery_sheet` reads off `wbC1`. -/
def discCellsC1 : DiscoveryCells :=
  [("Overall Performance", .str "11/11/2024 - 11/10/2025"),
   ("Impressions", .num 857000),
   ("Members reached", .num 297771)]

/-- The discovery record extracted from `discCellsC1` without file content:
the three optional metrics stay `None`. -/
def dC1 : DiscoveryData :=
  { start_date := ⟨2024, 11, 11⟩, end_date := ⟨2025, 11, 10⟩,
    total_impressions := 857000, members_reached := 297771 }

/-- A workbook holding only a `DEMOGRAPHICS` sheet (header plus one row). -/
def wbC3 : Workbook :=
  [("DEMOGRAPHICS",
    [[some (.str "Top Demographics"), some (.str "Value"), some (.str "Percentage")],
     [some (.str "Job titles"), some (.str "Engineer"), some (.num 12)]])]

/-- Six parsed posts, as the stored list the top-posts view reads. -/
def postsC2 : List PostDict :=
  List.replicate 6 ⟨some "u", some "2025-01-01", some 10, some 20⟩

/-! ### Helper lemmas -/

/-- A row on which the loop body is the identity can be removed from the
demographics row list without changing the parse result. -/
theorem processDemographicsRows_skip (row : Row)
    (h : ∀ d, stepDemographicsRow d row = d) :
    ∀ pre post : List Row,
      processDemographicsRows (pre ++ row :: post) = processDemographicsRows (pre ++ post) := by
  intro pre post
  induction pre with
  | nil => simpa [processDemographicsRows] using h (processDemographicsRows post)
  | cons a pre ih => simp [processDemographicsRows, ih]

/-- A falsy category or item cell makes the loop body skip the row. -/
theorem stepDemographicsRow_falsy (row : Row)
    (h : truthy (cellAt row 1) = false ∨ truthy (cellAt row 2) = false) :
    ∀ d, stepDemographicsRow d row = d := by
  intro d
  unfold stepDemographicsRow
  rcases h with h | h <;> simp [h]

/-- Appending under an unrecognized category label leaves the data unchanged. -/
theorem addDemographicItem_unrecognized (d : DemographicsData) (c : String)
    (item : DemographicItem) (h : c ∉ demographicCategories) :
    addDemographicItem d c item = d := by
  simp only [demographicCategories, List.mem_cons, List.not_mem_nil, or_false,
    not_or] at h
  obtain ⟨h1, h2, h3, h4, h5, h6⟩ := h
  simp [addDemographicItem, h1, h2, h3, h4, h5, h6]

/-- A row whose (stringified, stripped) category label is not one of the six
recognized names contributes nothing, whatever its other cells hold. -/
theorem stepDemographicsRow_unrecognized (row : Row)
    (h : strTrim (pyStrOfCell (cellAt row 1)) ∉ demographicCategories) :
    ∀ d, stepDemographicsRow d row = d := by
  intro d
  simp only [stepDemographicsRow]
  split
  · split
    · split
      · exact addDemographicItem_unrecognized d _ _ h
      · rfl
    · rfl
  · rfl

/-- A matched pattern is an actual prefix: the list decomposes as the pattern
followed by the rest. -/
theorem isPrefixList_decomp : ∀ p l : List Char, isPrefixList p l = true →
    l = p ++ List.drop p.length l := by
  intro p
  induction p with
  | nil =>
    intro l _
    simp
  | cons a as ih =>
    intro l h
    cases l with
    | nil => simp [isPrefixList] at h
    | cons b bs =>
      simp only [isPrefixList, Bool.and_eq_true, beq_iff_eq] at h
      obtain ⟨rfl, h2⟩ := h
      simpa using ih bs h2

/-- The split scanner never returns an empty list of parts. -/
theorem splitOnAux_ne_nil (sep : List Char) :
    ∀ fuel l acc, splitOnAux sep fuel l acc ≠ [] := by
  intro fuel
  induction fuel with
  | zero =>
    intro l acc
    simp [splitOnAux]
  | succ n ih =>
    intro l acc
    cases l with
    | nil => simp [splitOnAux]
    | cons c rest =>
      rw [splitOnAux]
      split
      · simp
      · exact ih rest (c :: acc)

/-- Joining the scanner's parts with the separator restores the input (with
the pending accumulator in front). -/
theorem joinParts_splitOnAux (sep : List Char) (hsep : sep ≠ []) :
    ∀ fuel l acc, joinParts sep (splitOnAux sep fuel l acc) = acc.reverse ++ l := by
  intro fuel
  induction fuel with
  | zero =>
    intro l acc
    simp [splitOnAux, joinParts]
  | succ n ih =>
    intro l acc
    cases l with
    | nil => simp [splitOnAux, joinParts]
    | cons c rest =>
      rw [splitOnAux]
      split
      · rename_i hpre
        have hx := splitOnAux_ne_nil sep n (List.drop (sep.length - 1) rest) []
        have hd : c :: rest = sep ++ List.drop (sep.length - 1) rest := by
          have h1 := isPrefixList_decomp sep (c :: rest) hpre
          obtain ⟨k, hk⟩ : ∃ k, sep.length = k + 1 := by
            cases hsl : sep.length with
            | zero => exact absurd (List.eq_nil_of_length_eq_zero hsl) hsep
            | succ k => exact ⟨k, rfl⟩
          rw [hk, List.drop_succ_cons] at h1
          rw [hk]
          simpa using h1
        cases hsplit : splitOnAux sep n (List.drop (sep.length - 1) rest) [] with
        | nil => exact absurd hsplit hx
        | cons x xs =>
          have hih := ih (List.drop (sep.length - 1) rest) []
          rw [hsplit] at hih
          simp only [List.reverse_nil, List.nil_append] at hih
          show joinParts sep (acc.reverse :: x :: xs) = acc.reverse ++ c :: rest
          rw [joinParts, hih, hd]
          · simp
          · intro hc
            exact List.noConfusion hc
      · rename_i hpre
        have hih := ih rest (c :: acc)
        rw [hih]
        simp

/-! ### Claims -/

/-- C9: for every input string that contains `"< 1%"` as a substring,
`parse_percentage` returns `0.005`; the substring check takes precedence over
the numeric-parsing branch. -/
theorem c9_sentinel_substring_precedence (s : String) (h : hasSub s "< 1%" = true) :
    parse_percentage (.str s) = .ok (.fin (1 / 200)) := by
  simp [parse_percentage, h]

/-- Witness for C9 at a string that merely contains the sentinel. -/
theorem c9_witness :
    parse_percentage (.str "about < 1% of total") = .ok (.fin (1 / 200)) :=
  c9_sentinel_substring_precedence "about < 1% of total" (by decide)

/-- C4 counterexample: `"1%2"` contains no sentinel and, after stripping a
`%` suffix and any leading `<` (the claim's cleaning, `specCleanPercent`), is
still `"1%2"`, which is not numeric — yet `parse_percentage` removes the
inner `%` and returns `12.0` instead of raising. -/
theorem c4_counterexample :
    hasSub "1%2" "< 1%" = false ∧
    specCleanPercent "1%2" = "1%2" ∧
    pyFloat? "1%2" = none ∧
    parse_percentage (.str "1%2") = .ok (.fin 12) := by
  refine ⟨by decide, rfl, rfl, by with_unfolding_all rfl⟩

/-- C4 (amended): `parse_percentage "< 1%"` is exactly `0.005`; for text not
containing the sentinel the source removes **every** `%` and `<` character
(not only a suffix `%` and leading `<`), trims, and raises a
`NormalizationError` exactly when the cleaned text does not parse as a float —
otherwise it returns the parsed value. -/
theorem c4_sentinel_and_cleaning :
    parse_percentage (.str "< 1%") = .ok (.fin (1 / 200)) ∧
    ∀ s : String, hasSub s "< 1%" = false →
      (pyFloat? (cleanPercent s) = none →
        parse_percentage (.str s) =
          .error (.msg ("Failed to parse percentage value '" ++ cleanPercent s ++ "'"))) ∧
      (∀ f, pyFloat? (cleanPercent s) = some f → parse_percentage (.str s) = .ok f) := by
  refine ⟨rfl, ?_⟩
  intro s hs
  constructor
  · intro hn
    simp [parse_percentage, hs, hn]
  · intro f hf
    simp [parse_percentage, hs, hf]

/-- Witness for C4's amended statement at concrete inputs. -/
theorem c4_witness :
    parse_percentage (.str "abc") = .error (.msg "Failed to parse percentage value 'abc'") ∧
    parse_percentage (.str "50%") = .ok (.fin 50) := by
  have h1 := (c4_sentinel_and_cleaning.2 "abc" (by decide)).1 rfl
  have h2 := (c4_sentinel_and_cleaning.2 "50%" (by decide)).2 (.fin 50) (by with_unfolding_all rfl)
  exact ⟨h1, h2⟩

/-- Inverting the `String.mk` map a split produces: the underlying part
lists are the parts' character data. -/
theorem map_mk_inv (X : List (List Char)) (L : List String)
    (h : X.map (fun l => (⟨l⟩ : String)) = L) : X = L.map String.data := by
  have hid : (String.data ∘ fun l => (⟨l⟩ : String)) = id := rfl
  rw [← h, List.map_map, hid, List.map_id]

/-- Any string decomposes as leading whitespace, its stripped core, and
trailing whitespace. -/
theorem listTrim_decomp (l : List Char) :
    ∃ w1 w2, l = w1 ++ listTrim l ++ w2 ∧
      (∀ c ∈ w1, isPyWs c = true) ∧ (∀ c ∈ w2, isPyWs c = true) := by
  refine ⟨l.takeWhile isPyWs, ((l.dropWhile isPyWs).reverse.takeWhile isPyWs).reverse,
    ?_, ?_, ?_⟩
  · unfold listTrim
    conv_lhs => rw [← List.takeWhile_append_dropWhile (p := isPyWs) (l := l)]
    rw [List.append_assoc]
    congr 1
    have hm := List.takeWhile_append_dropWhile (p := isPyWs) (l := (l.dropWhile isPyWs).reverse)
    calc l.dropWhile isPyWs
        = (l.dropWhile isPyWs).reverse.reverse := (List.reverse_reverse _).symm
      _ = ((l.dropWhile isPyWs).reverse.takeWhile isPyWs
            ++ (l.dropWhile isPyWs).reverse.dropWhile isPyWs).reverse := by rw [hm]
      _ = ((l.dropWhile isPyWs).reverse.dropWhile isPyWs).reverse
            ++ ((l.dropWhile isPyWs).reverse.takeWhile isPyWs).reverse :=
          List.reverse_append _ _
  · intro c hc
    exact List.mem_takeWhile_imp hc
  · intro c hc
    rw [List.mem_reverse] at hc
    exact List.mem_takeWhile_imp hc

/-- A list containing the separator has at least one match position. -/
theorem sepMatchCountList_ge_one (A B : List Char) :
    1 ≤ sepMatchCountList (A ++ ' ' :: '-' :: ' ' :: B) := by
  induction A with
  | nil =>
    rw [List.nil_append, sepMatchCountList]
    have hp : isPrefixList [' ', '-', ' '] (' ' :: '-' :: ' ' :: B) = true := rfl
    rw [hp]
    simp
  | cons c A ih =>
    rw [List.cons_append, sepMatchCountList]
    split <;> omega

/-- Every separator match position contributes a distinct `'-'` character, so
the match count is bounded by the dash count. -/
theorem sepMatchCountList_le_dashCount :
    ∀ n, ∀ l : List Char, l.length ≤ n → sepMatchCountList l ≤ dashCount l := by
  intro n
  induction n with
  | zero =>
    intro l hl
    have hnil : l = [] := List.eq_nil_of_length_eq_zero (Nat.le_zero.mp hl)
    subst hnil
    simp [sepMatchCountList, dashCount]
  | succ n ih =>
    intro l hl
    cases l with
    | nil => simp [sepMatchCountList, dashCount]
    | cons c rest =>
      by_cases hm : isPrefixList [' ', '-', ' '] (c :: rest) = true
      · obtain ⟨r, hr⟩ : ∃ r, c :: rest = ' ' :: '-' :: ' ' :: r :=
          ⟨_, isPrefixList_decomp _ _ hm⟩
        have hcc : c = ' ' := by injection hr
        have hrr : rest = '-' :: ' ' :: r := by injection hr
        subst hcc
        subst hrr
        have e1 : sepMatchCountList (' ' :: '-' :: ' ' :: r)
            = 1 + sepMatchCountList ('-' :: ' ' :: r) := by
          rw [sepMatchCountList, hm]
          simp
        have e2 : sepMatchCountList ('-' :: ' ' :: r)
            = sepMatchCountList (' ' :: r) := by
          rw [sepMatchCountList]
          have hnp : isPrefixList [' ', '-', ' '] ('-' :: ' ' :: r) = false := rfl
          rw [hnp]
          simp
        have e3 : dashCount (' ' :: '-' :: ' ' :: r) = dashCount (' ' :: r) + 1 := rfl
        have hlen : (' ' :: r).length ≤ n := by
          simp only [List.length_cons] at hl ⊢
          omega
        have hih := ih (' ' :: r) hlen
        omega
      · rw [sepMatchCountList, if_neg hm]
        have hlen : rest.length ≤ n := by
          simp only [List.length_cons] at hl
          omega
        have hih := ih rest hlen
        have hmono : dashCount rest ≤ dashCount (c :: rest) := by
          unfold dashCount
          rw [List.filter_cons]
          split
          · simp
          · exact le_refl _
        omega

/-- Every error raised by `strptimeMDY` is a `ValueError`-style message. -/
theorem strptimeMDY_error_msg (tok : String) (e : Err)
    (h : strptimeMDY tok = .error e) : ∃ m, e = .msg m := by
  unfold strptimeMDY at h
  split at h
  · split at h
    · split at h
      · exact Except.noConfusion h
      · exact ⟨_, (Except.error.inj h).symm⟩
    · exact ⟨_, (Except.error.inj h).symm⟩
  · exact ⟨_, (Except.error.inj h).symm⟩

/-- A token accepted by `strptimeMDY` consists only of digits and slashes. -/
theorem strptimeMDY_ok_chars (tok : String) (d : PyDate)
    (h : strptimeMDY tok = .ok d) :
    ∀ c ∈ tok.data, c.isDigit = true ∨ c = '/' := by
  unfold strptimeMDY at h
  split at h
  case h_2 => exact Except.noConfusion h
  case h_1 ms ds ys heq =>
    split at h
    case isFalse => exact Except.noConfusion h
    case isTrue hcond =>
      split at h
      case isFalse => exact Except.noConfusion h
      case isTrue =>
        unfold strSplitOn at heq
        have hx := map_mk_inv _ _ heq
        have hj := joinParts_splitOnAux "/".data (by simp) tok.data.length tok.data []
        rw [hx] at hj
        simp only [List.map_cons, List.map_nil, List.reverse_nil, List.nil_append] at hj
        simp only [joinParts] at hj
        intro c hc
        rw [← hj] at hc
        have hc4 : c ∈ ms.data ∨ c ∈ ds.data ∨ c ∈ ys.data ∨ c = '/' := by
          simp only [List.mem_append, List.mem_cons, List.not_mem_nil, or_false] at hc
          tauto
        have hms : ∀ a ∈ ms.data, a.isDigit = true := by
          have := hcond.1
          unfold isDigitStr at this
          exact fun a ha => List.all_eq_true.mp (Bool.and_elim_right this) a ha
        have hds : ∀ a ∈ ds.data, a.isDigit = true := by
          have := hcond.2.2.1
          unfold isDigitStr at this
          exact fun a ha => List.all_eq_true.mp (Bool.and_elim_right this) a ha
        have hys : ∀ a ∈ ys.data, a.isDigit = true := by
          have := hcond.2.2.2.2.1
          unfold isDigitStr at this
          exact fun a ha => List.all_eq_true.mp (Bool.and_elim_right this) a ha
        rcases hc4 with hc4 | hc4 | hc4 | hc4
        · exact Or.inl (hms c hc4)
        · exact Or.inl (hds c hc4)
        · exact Or.inl (hys c hc4)
        · exact Or.inr hc4

/-- No character of a string whose stripped form `strptimeMDY` accepts can be
a dash: its core is digits and slashes, its margins are whitespace. -/
theorem strptimeMDY_ok_no_dash (t : String) (d : PyDate)
    (h : strptimeMDY (strTrim t) = .ok d) :
    ∀ c ∈ t.data, c ≠ '-' := by
  obtain ⟨w1, w2, hs, hw1, hw2⟩ := listTrim_decomp t.data
  have hcore : ∀ c ∈ listTrim t.data, c.isDigit = true ∨ c = '/' :=
    strptimeMDY_ok_chars (strTrim t) d h
  intro c hc
  rw [hs] at hc
  simp only [List.mem_append] at hc
  rcases hc with (hc | hc) | hc
  · intro hd
    subst hd
    have := hw1 _ hc
    simp [isPyWs] at this
  · intro hd
    subst hd
    rcases hcore _ hc with hdig | hsl
    · simp at hdig
    · exact absurd hsl (by decide)
  · intro hd
    subst hd
    have := hw2 _ hc
    simp [isPyWs] at this

/-- A successful `parse_date_range` forces exactly one `" - "` occurrence in
the raw input: the two accepted tokens and the stripped margins contain no
dash at all, so the separator's dash is the only one. -/
theorem sepCount_one_of_parse_parts (s t1 t2 : String) (d1 d2 : PyDate)
    (hsp : strSplitOn (strTrim s) " - " = [t1, t2])
    (h1 : strptimeMDY (strTrim t1) = .ok d1)
    (h2 : strptimeMDY (strTrim t2) = .ok d2) :
    sepMatchCountList s.data = 1 := by
  obtain ⟨w1, w2, hs, hw1, hw2⟩ := listTrim_decomp s.data
  have hcore : listTrim s.data = t1.data ++ [' ', '-', ' '] ++ t2.data := by
    unfold strSplitOn at hsp
    have hx := map_mk_inv _ _ hsp
    have hj := joinParts_splitOnAux " - ".data (by simp) (strTrim s).data.length
      (strTrim s).data []
    rw [hx] at hj
    simp only [List.map_cons, List.map_nil, List.reverse_nil, List.nil_append] at hj
    simp only [joinParts] at hj
    have hts : (strTrim s).data = listTrim s.data := rfl
    rw [hts] at hj
    rw [← hj]
  rw [hcore] at hs
  have hnd1 := strptimeMDY_ok_no_dash t1 d1 h1
  have hnd2 := strptimeMDY_ok_no_dash t2 d2 h2
  have hdash : dashCount s.data = 1 := by
    rw [hs]
    unfold dashCount
    simp only [List.filter_append, List.length_append]
    have e1 : w1.filter (fun c => c == '-') = [] := by
      rw [List.filter_eq_nil_iff]
      intro c hc
      have := hw1 c hc
      intro hb
      rw [beq_iff_eq] at hb
      subst hb
      simp [isPyWs] at this
    have e2 : w2.filter (fun c => c == '-') = [] := by
      rw [List.filter_eq_nil_iff]
      intro c hc
      have := hw2 c hc
      intro hb
      rw [beq_iff_eq] at hb
      subst hb
      simp [isPyWs] at this
    have e3 : t1.data.filter (fun c => c == '-') = [] := by
      rw [List.filter_eq_nil_iff]
      intro c hc hb
      rw [beq_iff_eq] at hb
      exact hnd1 c hc hb
    have e4 : t2.data.filter (fun c => c == '-') = [] := by
      rw [List.filter_eq_nil_iff]
      intro c hc hb
      rw [beq_iff_eq] at hb
      exact hnd2 c hc hb
    have e5 : ([' ', '-', ' '].filter (fun c => c == '-')).length = 1 := rfl
    simp [e1, e2, e3, e4, e5]
  have hge : 1 ≤ sepMatchCountList s.data := by
    have hre : w1 ++ (t1.data ++ [' ', '-', ' '] ++ t2.data) ++ w2
        = (w1 ++ t1.data) ++ ' ' :: '-' :: ' ' :: (t2.data ++ w2) := by
      simp
    rw [hs, hre]
    exact sepMatchCountList_ge_one _ _
  have hle := sepMatchCountList_le_dashCount s.data.length s.data (le_refl _)
  omega

/-- C5: `parse_date_range "11/11/2024 - 11/10/2025"` is the pair
(2024-11-11, 2025-11-10), each token read as `MM/DD/YYYY`; and every input
string containing zero or two-or-more occurrences of the separator `" - "`
(counted in the raw input, before any stripping) makes `parse_date_range`
raise a `NormalizationError`. -/
theorem c5_date_range_parse (s : String)
    (h : sepOccurrencesRaw s = 0 ∨ 2 ≤ sepOccurrencesRaw s) :
    parse_date_range "11/11/2024 - 11/10/2025" =
      .ok (⟨2024, 11, 11⟩, ⟨2025, 11, 10⟩) ∧
    ∃ m, parse_date_range s = .error (.msg m) := by
  refine ⟨rfl, ?_⟩
  unfold parse_date_range
  split
  case h_2 => exact ⟨_, rfl⟩
  case h_1 t1 t2 heq =>
    cases h1 : strptimeMDY (strTrim t1) with
    | error e =>
      obtain ⟨m, rfl⟩ := strptimeMDY_error_msg _ _ h1
      exact ⟨_, rfl⟩
    | ok d1 =>
      cases h2 : strptimeMDY (strTrim t2) with
      | error e =>
        obtain ⟨m, rfl⟩ := strptimeMDY_error_msg _ _ h2
        exact ⟨_, rfl⟩
      | ok d2 =>
        exfalso
        have hone := sepCount_one_of_parse_parts s t1 t2 d1 d2 heq h1 h2
        unfold sepOccurrencesRaw at h
        omega

/-- Witness for C5: a separator-free string, and the raw-count case the strip
hides — leading `" - "` plus one inner separator (two raw occurrences, one
after stripping) — both raise. -/
theorem c5_witness :
    parse_date_range "11/11/2024 - 11/10/2025" =
      .ok (⟨2024, 11, 11⟩, ⟨2025, 11, 10⟩) ∧
    (∃ m, parse_date_range "11/11/2024" = .error (.msg m)) ∧
    (∃ m, parse_date_range " - 1/1/2024 - 1/2/2024" = .error (.msg m)) :=
  ⟨(c5_date_range_parse "11/11/2024" (Or.inl (by decide))).1,
   (c5_date_range_parse "11/11/2024" (Or.inl (by decide))).2,
   (c5_date_range_parse " - 1/1/2024 - 1/2/2024" (Or.inr (by decide))).2⟩

/-- C7: whenever at least one of the three required discovery fields is
missing from the cell mapping, `extract_discovery_data` fails with a
`MissingFieldError` carrying the complete set of missing fields. -/
theorem c7_missing_fields_named_as_set (cells : DiscoveryCells) (fc : Option Workbook)
    (h : required_fields.filter (fun f => !(hasKey cells f)) ≠ []) :
    extract_discovery_data cells fc =
      .error (.missingFields (required_fields.filter (fun f => !(hasKey cells f)))) := by
  have hall : required_fields.all (fun f => hasKey cells f) = false := by
    by_contra hc
    rw [Bool.not_eq_false, List.all_eq_true] at hc
    apply h
    rw [List.filter_eq_nil_iff]
    intro a ha
    simp [hc a ha]
  simp [extract_discovery_data, hall]

/-- Witness for C7: two fields missing, both named. -/
theorem c7_witness :
    extract_discovery_data [("Impressions", .num 5)] none =
      .error (.missingFields ["Overall Performance", "Members reached"]) := by
  have h := c7_missing_fields_named_as_set [("Impressions", .num 5)] none (by decide)
  exact h

/-- C3: whenever the `DEMOGRAPHICS` sheet is present, the parse succeeds and
its dictionary form has exactly the six fixed category keys; a row whose
category label is not one of the six exact names contributes nothing to the
result (and never causes a failure). -/
theorem c3_demographics_six_fixed_keys (wb : Workbook) (ws : Sheet)
    (hws : lookupSheet wb "DEMOGRAPHICS" = some ws) :
    (∃ d, parse_demographics_sheet wb = .ok d ∧
        d.to_dict.map Prod.fst =
          ["job_titles", "locations", "industries", "seniority", "company_size", "companies"]) ∧
    ∀ pre post row, strTrim (pyStrOfCell (cellAt row 1)) ∉ demographicCategories →
      processDemographicsRows (pre ++ row :: post) = processDemographicsRows (pre ++ post) := by
  constructor
  · exact ⟨processDemographicsRows (ws.drop 1),
      by simp [parse_demographics_sheet, hws], rfl⟩
  · intro pre post row h
    exact processDemographicsRows_skip row (stepDemographicsRow_unrecognized row h) pre post

/-- Witness for C3 at a concrete workbook and a concrete unrecognized row. -/
theorem c3_witness :
    (∃ d, parse_demographics_sheet wbC3 = .ok d ∧
        d.to_dict.map Prod.fst =
          ["job_titles", "locations", "industries", "seniority", "company_size", "companies"]) ∧
    processDemographicsRows [[some (.str "Hobbies"), some (.str "X"), some (.num 1)]] =
      processDemographicsRows [] := by
  have h := c3_demographics_six_fixed_keys wbC3 _ rfl
  exact ⟨h.1, h.2 [] [] [some (.str "Hobbies"), some (.str "X"), some (.num 1)] (by decide)⟩

/-- C10: a row whose category cell or item-value cell is falsy (`None`, empty
string, or the number 0) is silently skipped even when the remaining cells
are valid, while a percentage cell equal to 0 does not cause a skip: the row
is kept with percentage `0.0`. -/
theorem c10_falsy_cells_skip_row :
    (∀ pre post row, truthy (cellAt row 1) = false ∨ truthy (cellAt row 2) = false →
      processDemographicsRows (pre ++ row :: post) = processDemographicsRows (pre ++ post)) ∧
    processDemographicsRows [[some (.str "Job titles"), some (.str "Engineer"), some (.num 0)]] =
      ⟨[⟨"Engineer", .fin 0⟩], [], [], [], [], []⟩ := by
  constructor
  · intro pre post row h
    exact processDemographicsRows_skip row (stepDemographicsRow_falsy row h) pre post
  · with_unfolding_all rfl

/-- Witness for C10: an empty-string category cell skips a row with valid
remaining cells; a zero percentage cell does not. -/
theorem c10_witness :
    processDemographicsRows [[some (.str ""), some (.str "Engineer"), some (.num 5)]] =
      processDemographicsRows [] ∧
    processDemographicsRows [[some (.str "Job titles"), some (.str "Engineer"), some (.num 0)]] =
      ⟨[⟨"Engineer", .fin 0⟩], [], [], [], [], []⟩ :=
  ⟨c10_falsy_cells_skip_row.1 [] [] [some (.str ""), some (.str "Engineer"), some (.num 5)]
      (Or.inl (by decide)),
   c10_falsy_cells_skip_row.2⟩

/-- C2 (code bug): on a stored list of six parsed posts, the top-posts view
returns **six** records ranked 1..6 — not `min(N, 5) = 5` records as the
claim (and the function's own "top 5" documentation) states. -/
theorem c2_top_posts_view_returns_six :
    (get_top_posts postsC2).length = 6 ∧
    (get_top_posts postsC2).map TopPost.rank = [1, 2, 3, 4, 5, 6] ∧
    ¬((get_top_posts postsC2).length = min postsC2.length 5) := by
  refine ⟨rfl, rfl, by decide⟩

/-- C6: `calculate_summary_metrics` propagates the first failing
sub-aggregation (in the order engagements, average, followers) and returns a
dictionary with all three metrics exactly when all three succeed. -/
theorem c6_summary_metrics_all_or_nothing (wb : Workbook) (ti : Int) :
    (∀ e, get_total_engagements wb = .error e →
      calculate_summary_metrics wb ti =
        .error (wrapErr "Failed to calculate summary metrics: " e)) ∧
    (∀ te e, get_total_engagements wb = .ok te →
      get_average_daily_impressions ti = .error e →
      calculate_summary_metrics wb ti =
        .error (wrapErr "Failed to calculate summary metrics: " e)) ∧
    (∀ te avg e, get_total_engagements wb = .ok te →
      get_average_daily_impressions ti = .ok avg →
      get_new_followers wb = .error e →
      calculate_summary_metrics wb ti =
        .error (wrapErr "Failed to calculate summary metrics: " e)) ∧
    (∀ te avg nf, get_total_engagements wb = .ok te →
      get_average_daily_impressions ti = .ok avg →
      get_new_followers wb = .ok nf →
      calculate_summary_metrics wb ti = .ok ⟨te, avg, nf⟩) := by
  refine ⟨?_, ?_, ?_, ?_⟩
  · intro e he
    simp [calculate_summary_metrics, he]
  · intro te e h1 h2
    simp [calculate_summary_metrics, h1, h2]
  · intro te avg e h1 h2 h3
    simp [calculate_summary_metrics, h1, h2, h3]
  · intro te avg nf h1 h2 h3
    simp [calculate_summary_metrics, h1, h2, h3]

/-- Witness for C6: on a workbook with a valid `ENGAGEMENT` sheet but no
`FOLLOWERS` sheet, the followers failure is propagated and no partial
dictionary is returned. -/
theorem c6_witness :
    calculate_summary_metrics wbC1 365 =
      .error (.msg "Failed to calculate summary metrics: Failed to calculate new followers: FOLLOWERS sheet not found in Excel file") :=
  (c6_summary_metrics_all_or_nothing wbC1 365).2.2.1 15 1
    (.msg "Failed to calculate new followers: FOLLOWERS sheet not found in Excel file")
    (by with_unfolding_all rfl) (by with_unfolding_all rfl) rfl

/-- C8: the orchestrator is deterministic in the file bytes — two runs on the
same content and filename store bundles with identical discovery, top-posts
and demographics records, and the responses agree except for the generated
file identifier. -/
theorem c8_process_deterministic_modulo_file_id (id1 id2 fn : String) (wb : Workbook) :
    (process_linkedin_file id1 fn wb).stored = (process_linkedin_file id2 fn wb).stored ∧
    (process_linkedin_file id1 fn wb).response.success =
      (process_linkedin_file id2 fn wb).response.success ∧
    (process_linkedin_file id1 fn wb).response.message =
      (process_linkedin_file id2 fn wb).response.message ∧
    (process_linkedin_file id1 fn wb).response.fileId = id1 ∧
    (process_linkedin_file id1 fn wb).stored_key = id1 :=
  ⟨rfl, rfl, rfl, rfl, rfl⟩

/-- C1 counterexample: on a workbook with valid discovery, demographics,
engagement and top-posts sheets but no `FOLLOWERS` sheet, the discovery
record ends with `new_followers = None` — but `total_engagements` and
`average_impressions_per_day` are `None` as well (the all-or-nothing summary
metrics fail entirely), contradicting the claim that the other metrics are
populated.  The orchestration itself still succeeds. -/
theorem c1_counterexample :
    lookupSheet wbC1 "FOLLOWERS" = none ∧
    parse_discovery_sheet wbC1 = .ok discCellsC1 ∧
    extract_discovery_data discCellsC1 (some wbC1) =
      .ok { start_date := ⟨2024, 11, 11⟩, end_date := ⟨2025, 11, 10⟩,
            total_impressions := 857000, members_reached := 297771,
            total_engagements := none, average_impressions_per_day := none,
            new_followers := none } ∧
    (process_linkedin_file "file-1" "export.xlsx" wbC1).response.success = true := by
  refine ⟨rfl, rfl, by with_unfolding_all rfl, rfl⟩

/-- Whenever `extract_discovery_data` is run without file content — as the
orchestrator does — the three optional metrics of the returned record are all
`None`. -/
theorem extract_discovery_data_no_content_metrics_none (cells : DiscoveryCells)
    (d : DiscoveryData) (he : extract_discovery_data cells none = .ok d) :
    d.total_engagements = none ∧ d.average_impressions_per_day = none ∧
      d.new_followers = none := by
  rw [extract_discovery_data] at he
  split at he
  · split at he
    · exact Except.noConfusion he
    · split at he
      · exact Except.noConfusion he
      · split at he
        · exact Except.noConfusion he
        · injection he with h
          subst h
          exact ⟨rfl, rfl, rfl⟩
  · exact Except.noConfusion he

/-- C1 (amended): whenever the orchestrator's discovery path succeeds, the
stored bundle's discovery record holds the four required fields, the
orchestration reports success, and **all three** engagement-derived metrics
of the extracted record — `new_followers`, `total_engagements` and
`average_impressions_per_day` — are absent: the orchestrator never passes the
file content to the discovery extractor, and the summary-metrics computation
is all-or-nothing in any case. -/
theorem c1_orchestrator_discovery_metrics_all_absent
    (fid fn : String) (wb : Workbook) (cells : DiscoveryCells) (d : DiscoveryData)
    (hp : parse_discovery_sheet wb = .ok cells)
    (he : extract_discovery_data cells none = .ok d) :
    (process_linkedin_file fid fn wb).stored.discovery_data =
      some ⟨d.start_date, d.end_date, d.total_impressions, d.members_reached⟩ ∧
    d.total_engagements = none ∧
    d.average_impressions_per_day = none ∧
    d.new_followers = none ∧
    (process_linkedin_file fid fn wb).response.success = true := by
  obtain ⟨h1, h2, h3⟩ := extract_discovery_data_no_content_metrics_none cells d he
  refine ⟨?_, h1, h2, h3, rfl⟩
  simp [process_linkedin_file, hp, he]

/-- Witness for C1's amended statement on the concrete workbook without a
`FOLLOWERS` sheet. -/
theorem c1_witness :
    (process_linkedin_file "file-2" "export.xlsx" wbC1).stored.discovery_data =
      some ⟨⟨2024, 11, 11⟩, ⟨2025, 11, 10⟩, 857000, 297771⟩ ∧
    dC1.total_engagements = none ∧
    dC1.average_impressions_per_day = none ∧
    dC1.new_followers = none ∧
    (process_linkedin_file "file-2" "export.xlsx" wbC1).response.success = true :=
  c1_orchestrator_discovery_metrics_all_absent "file-2" "export.xlsx" wbC1 discCellsC1 dC1
    rfl (by with_unfolding_all rfl)

end LinkedinWrapped
